import Mathlib

/-!
Verification of the trajectory propagation and playback-synchronization engine
of the Quack Meteor Madness frontend.

The definitions below are shallow embeddings of the TypeScript source:

* `toScaledVector` embeds `toScaledVector`
  (src/Meteor_Madness_Frontend/src/utils/orbitalMechanics.ts, lines 181-188);
* `buildTimeline` / `sampleTimeline` embed the functions of the same names
  (src/Meteor_Madness_Frontend/src/components/Scene.tsx, lines 149-193);
* `tick` embeds the playback-advance portion of the `animate` frame callback
  (Scene.tsx, lines 575-593);
* `handleSimulationDataChange` embeds the playback-state effect of the
  simulationData-change handler (Scene.tsx, lines 905-1379);
* `computeGlobalSpan` embeds the global timestamp-span computation
  (Scene.tsx, lines 1338-1354);
* `analyzeOrbit` embeds `analyzeOrbit` of the orbit-diagnostics module;
* `getEarthPosition` embeds `getEarthPosition`
  (orbitalMechanics.ts, lines 138-156).

Exact rational arithmetic (`ℚ`) stands in for JavaScript numbers wherever the
code uses only field operations and comparisons; the Kepler propagator and the
orbit diagnostics, which use transcendental functions, are embedded over `ℝ`.
-/

namespace MeteorMadness

/-- 3-vector over `ℚ` (THREE.Vector3 for the purely algebraic code paths). -/
structure Vec3 where
  x : ℚ
  y : ℚ
  z : ℚ
deriving DecidableEq, Repr

instance : Inhabited Vec3 := ⟨⟨0, 0, 0⟩⟩

/-- `export const SCALE_FACTOR = 1 / 149600` (orbitalMechanics.ts). -/
def SCALE_FACTOR : ℚ := 1 / 149600

/-- `Math.max(Math.abs(x), Math.abs(y), Math.abs(z))` in `toScaledVector`. -/
def maxAbsComponent (v : Vec3) : ℚ := max |v.x| (max |v.y| |v.z|)

/-- Embedding of `toScaledVector` (orbitalMechanics.ts, lines 181-188):
`const assumeMeters = maxAbs > 5e8; const factor = assumeMeters ? 1/1000 : 1;
return new THREE.Vector3(x*factor, y*factor, z*factor).multiplyScalar(SCALE_FACTOR)`. -/
def toScaledVector (v : Vec3) : Vec3 :=
  let maxAbs := maxAbsComponent v
  let assumeMeters : Bool := maxAbs > 5 * 10 ^ 8
  let factor : ℚ := if assumeMeters then 1 / 1000 else 1
  ⟨v.x * factor * SCALE_FACTOR, v.y * factor * SCALE_FACTOR, v.z * factor * SCALE_FACTOR⟩

/-- C8: `toScaledVector` classifies the input as meters exactly when
`max(|x|,|y|,|z|) > 5×10^8`; on the meters path each component is divided by
1000 before the display scale factor is applied, otherwise only the display
scale factor is applied. -/
theorem toScaledVector_unit_classification (v : Vec3) :
    (5 * 10 ^ 8 < maxAbsComponent v →
      toScaledVector v =
        ⟨v.x / 1000 * SCALE_FACTOR, v.y / 1000 * SCALE_FACTOR, v.z / 1000 * SCALE_FACTOR⟩) ∧
    (¬ 5 * 10 ^ 8 < maxAbsComponent v →
      toScaledVector v = ⟨v.x * SCALE_FACTOR, v.y * SCALE_FACTOR, v.z * SCALE_FACTOR⟩) := by
  constructor
  · intro h
    simp only [toScaledVector, decide_eq_true_eq, if_pos h, Vec3.mk.injEq]
    refine ⟨?_, ?_, ?_⟩ <;> ring
  · intro h
    simp only [toScaledVector, decide_eq_true_eq, if_neg h, Vec3.mk.injEq]
    refine ⟨?_, ?_, ?_⟩ <;> ring

/-- Witness for C8: a vector with max component `6×10^8` takes the meters path
and a vector with max component `4×10^8` takes the kilometers path. -/
theorem toScaledVector_unit_classification_witness :
    (5 * 10 ^ 8 < maxAbsComponent ⟨600000000, 0, 0⟩ ∧
      toScaledVector ⟨600000000, 0, 0⟩ =
        ⟨(600000000 : ℚ) / 1000 * SCALE_FACTOR, 0 / 1000 * SCALE_FACTOR,
          0 / 1000 * SCALE_FACTOR⟩) ∧
    (¬ 5 * 10 ^ 8 < maxAbsComponent ⟨400000000, 0, 0⟩ ∧
      toScaledVector ⟨400000000, 0, 0⟩ =
        ⟨(400000000 : ℚ) * SCALE_FACTOR, 0 * SCALE_FACTOR, 0 * SCALE_FACTOR⟩) :=
  ⟨⟨by norm_num [maxAbsComponent],
    (toScaledVector_unit_classification ⟨600000000, 0, 0⟩).1 (by norm_num [maxAbsComponent])⟩,
   ⟨by norm_num [maxAbsComponent],
    (toScaledVector_unit_classification ⟨400000000, 0, 0⟩).2 (by norm_num [maxAbsComponent])⟩⟩

/-- C10: `toScaledVector` always returns a uniform positive scalar multiple of
its input — `c = SCALE_FACTOR/1000` on the meters branch, `c = SCALE_FACTOR`
on the kilometers branch — so unit normalization never changes a direction and
never applies different scales to different components. -/
theorem toScaledVector_uniform_scale (v : Vec3) :
    ∃ c : ℚ, 0 < c ∧
      toScaledVector v = ⟨c * v.x, c * v.y, c * v.z⟩ ∧
      c = if 5 * 10 ^ 8 < maxAbsComponent v then SCALE_FACTOR / 1000 else SCALE_FACTOR := by
  refine ⟨if 5 * 10 ^ 8 < maxAbsComponent v then SCALE_FACTOR / 1000 else SCALE_FACTOR,
    ?_, ?_, rfl⟩
  · split <;> norm_num [SCALE_FACTOR]
  · simp only [toScaledVector, decide_eq_true_eq]
    split <;> (simp only [Vec3.mk.injEq]; refine ⟨?_, ?_, ?_⟩ <;> ring)

/-! ## Timeline builder (Scene.tsx, lines 149-167) -/

/-- Raw trajectory sample: `{position, timestamp?}`; the timestamp is optional
in the source (`point.timestamp ?? index`). -/
structure TrajectoryPoint where
  position : Vec3
  timestamp : Option ℚ
deriving DecidableEq, Repr

/-- `TimelinePoint`: `{t, position, timestamp}` (Scene.tsx, lines 133-137). -/
structure TimelinePoint where
  t : ℚ
  position : Vec3
  timestamp : ℚ
deriving DecidableEq, Repr

instance : Inhabited TimelinePoint := ⟨⟨0, default, 0⟩⟩

/-- `const timestamps = points.map((point, index) => point.timestamp ?? index)`. -/
def effectiveTimestamps (points : List TrajectoryPoint) : List ℚ :=
  points.enum.map fun ip => ip.2.timestamp.getD (ip.1 : ℚ)

/-- `const span = last !== first ? last - first : points.length > 1 ? points.length - 1 : 1`,
with `first = timestamps[0]` and `last = timestamps[timestamps.length - 1]`
(Scene.tsx, lines 155-156). -/
def timelineSpan (points : List TrajectoryPoint) : ℚ :=
  if (effectiveTimestamps points).getLastD 0 ≠ (effectiveTimestamps points).headD 0 then
    (effectiveTimestamps points).getLastD 0 - (effectiveTimestamps points).headD 0
  else if 1 < points.length then (points.length : ℚ) - 1 else 1

/-- Embedding of `buildTimeline` (Scene.tsx, lines 149-167): empty input gives
an empty timeline; otherwise each sample at index `i` is mapped to
`t = (i == length-1) ? 1 : clamp((timestamps[i]-first)/span, 0, 1)`, the
position passed through `toScaledVector`, and the effective timestamp. -/
def buildTimeline (points : List TrajectoryPoint) : List TimelinePoint :=
  if points.length = 0 then [] else
    let timestamps := effectiveTimestamps points
    let first := timestamps.headD 0
    let span := timelineSpan points
    points.enum.map fun ip =>
      let ts := timestamps.getD ip.1 0
      let normalized := if span ≠ 0 then (ts - first) / span else 0
      ⟨if ip.1 = points.length - 1 then 1 else min (max normalized 0) 1,
        toScaledVector ip.2.position, ts⟩

/-! ### List plumbing helpers -/

lemma headD_eq_getD {α : Type} (l : List α) (d : α) (h : 0 < l.length) :
    l.headD d = l.getD 0 d := by
  cases l with
  | nil => simp at h
  | cons a as => rfl

lemma getLastD_eq_getD {α : Type} (l : List α) (d : α) (h : 0 < l.length) :
    l.getLastD d = l.getD (l.length - 1) d := by
  rw [List.getLastD_eq_getLast?, List.getLast?_eq_getElem?,
    List.getD_eq_getElem?_getD, List.getElem?_eq_getElem (by omega)]

lemma sorted_getElem_mono {l : List ℚ} (hs : l.Sorted (· ≤ ·)) {i j : ℕ}
    (hij : i ≤ j) (hi : i < l.length) (hj : j < l.length) :
    l[i] ≤ l[j] := by
  rcases eq_or_lt_of_le hij with rfl | hlt
  · exact le_refl _
  · exact List.pairwise_iff_getElem.mp hs i j hi hj hlt

lemma sorted_getD_mono {l : List ℚ} (hs : l.Sorted (· ≤ ·)) {i j : ℕ}
    (hij : i ≤ j) (hj : j < l.length) : l.getD i 0 ≤ l.getD j 0 := by
  rw [List.getD_eq_getElem _ _ (lt_of_le_of_lt hij hj), List.getD_eq_getElem _ _ hj]
  exact sorted_getElem_mono hs hij (lt_of_le_of_lt hij hj) hj

lemma sorted_headD_le {l : List ℚ} (hs : l.Sorted (· ≤ ·)) {x : ℚ} (hx : x ∈ l) :
    l.headD 0 ≤ x := by
  obtain ⟨i, hi, rfl⟩ := List.mem_iff_getElem.mp hx
  rw [headD_eq_getD _ _ (by omega), List.getD_eq_getElem _ _ (by omega)]
  exact sorted_getElem_mono hs (Nat.zero_le i) (by omega) hi

lemma sorted_le_getLastD {l : List ℚ} (hs : l.Sorted (· ≤ ·)) {x : ℚ} (hx : x ∈ l) :
    x ≤ l.getLastD 0 := by
  obtain ⟨i, hi, rfl⟩ := List.mem_iff_getElem.mp hx
  rw [getLastD_eq_getD _ _ (by omega), List.getD_eq_getElem _ _ (by omega)]
  exact sorted_getElem_mono hs (by omega) (by omega) (by omega)

/-! ### buildTimeline structure lemmas -/

lemma effectiveTimestamps_length (points : List TrajectoryPoint) :
    (effectiveTimestamps points).length = points.length := by
  simp [effectiveTimestamps]

lemma buildTimeline_eq_map (points : List TrajectoryPoint) (h : points.length ≠ 0) :
    buildTimeline points = points.enum.map (fun ip =>
      ⟨if ip.1 = points.length - 1 then 1
        else min (max (if timelineSpan points ≠ 0 then
            ((effectiveTimestamps points).getD ip.1 0 -
              (effectiveTimestamps points).headD 0) / timelineSpan points
          else 0) 0) 1,
        toScaledVector ip.2.position,
        (effectiveTimestamps points).getD ip.1 0⟩) := by
  unfold buildTimeline
  rw [if_neg h]

lemma buildTimeline_length (points : List TrajectoryPoint) :
    (buildTimeline points).length = points.length := by
  unfold buildTimeline
  split
  · simp [*]
  · simp

lemma buildTimeline_t_getD (points : List TrajectoryPoint) (i : ℕ)
    (hi : i < points.length) :
    ((buildTimeline points).map TimelinePoint.t).getD i 9 =
      if i = points.length - 1 then 1
      else min (max (if timelineSpan points ≠ 0 then
          ((effectiveTimestamps points).getD i 0 -
            (effectiveTimestamps points).headD 0) / timelineSpan points
        else 0) 0) 1 := by
  rw [buildTimeline_eq_map points (by omega), List.map_map,
    List.getD_eq_getElem _ _ (by simpa using hi)]
  simp

lemma effectiveTimestamps_getLastD_mem (points : List TrajectoryPoint)
    (h : 0 < points.length) :
    (effectiveTimestamps points).getLastD 0 ∈ effectiveTimestamps points := by
  rw [getLastD_eq_getD _ _ (by rw [effectiveTimestamps_length]; omega),
    List.getD_eq_getElem _ _ (by rw [effectiveTimestamps_length]; omega)]
  exact List.getElem_mem _

lemma timelineSpan_pos (points : List TrajectoryPoint) (hpos : 0 < points.length)
    (hs : (effectiveTimestamps points).Sorted (· ≤ ·)) : 0 < timelineSpan points := by
  unfold timelineSpan
  split
  · rename_i hne
    have hle := sorted_headD_le hs (effectiveTimestamps_getLastD_mem points hpos)
    exact sub_pos.mpr (lt_of_le_of_ne hle (Ne.symm hne))
  · split
    · rename_i h1
      have : (1 : ℚ) < (points.length : ℚ) := by exact_mod_cast h1
      linarith
    · norm_num

lemma buildTimeline_t_sorted (points : List TrajectoryPoint)
    (hs : (effectiveTimestamps points).Sorted (· ≤ ·)) :
    ((buildTimeline points).map TimelinePoint.t).Sorted (· ≤ ·) := by
  rcases Nat.eq_zero_or_pos points.length with h0 | hpos
  · rw [List.length_eq_zero] at h0
    subst h0
    simp [buildTimeline]
  have hspan : 0 < timelineSpan points := timelineSpan_pos points hpos hs
  refine List.pairwise_iff_getElem.mpr ?_
  intro i j hi hj hij
  have hlen : ((buildTimeline points).map TimelinePoint.t).length = points.length := by
    simp [buildTimeline_length]
  rw [hlen] at hi hj
  rw [← List.getD_eq_getElem _ 9 (by simp [buildTimeline_length]; omega),
    ← List.getD_eq_getElem _ 9 (by simp [buildTimeline_length]; omega),
    buildTimeline_t_getD points i hi, buildTimeline_t_getD points j hj]
  by_cases hjlast : j = points.length - 1
  · rw [if_pos hjlast]
    split
    · exact le_refl 1
    · exact min_le_right _ 1
  · rw [if_neg hjlast, if_neg (by omega), if_pos (ne_of_gt hspan), if_pos (ne_of_gt hspan)]
    have hts : (effectiveTimestamps points).getD i 0 ≤ (effectiveTimestamps points).getD j 0 :=
      sorted_getD_mono hs (le_of_lt hij) (by rw [effectiveTimestamps_length]; omega)
    have hdiv := (div_le_div_iff_of_pos_right hspan).mpr
      (sub_le_sub_right hts ((effectiveTimestamps points).headD 0))
    exact min_le_min (max_le_max hdiv (le_refl 0)) (le_refl 1)

lemma buildTimeline_t_getLastD (points : List TrajectoryPoint)
    (h : 0 < points.length) :
    ((buildTimeline points).map TimelinePoint.t).getLastD 9 = 1 := by
  have hlen : ((buildTimeline points).map TimelinePoint.t).length = points.length := by
    simp [buildTimeline_length]
  rw [getLastD_eq_getD _ _ (by omega), hlen,
    buildTimeline_t_getD points _ (by omega), if_pos rfl]

lemma buildTimeline_t_headD (points : List TrajectoryPoint)
    (h2 : 2 ≤ points.length) :
    ((buildTimeline points).map TimelinePoint.t).headD 9 = 0 := by
  have hlen : ((buildTimeline points).map TimelinePoint.t).length = points.length := by
    simp [buildTimeline_length]
  rw [headD_eq_getD _ _ (by omega), buildTimeline_t_getD points 0 (by omega),
    if_neg (by omega)]
  have h0 : (effectiveTimestamps points).getD 0 0 = (effectiveTimestamps points).headD 0 :=
    (headD_eq_getD _ _ (by rw [effectiveTimestamps_length]; omega)).symm
  rw [h0]
  split
  · simp
  · simp

/-- C2 (counterexample): a single-sample input produces a timeline whose one
(first = last) entry has `t = 1`, not `t = 0` — `buildTimeline` forces the
last element to 1 and the single element is the last element, so the claim
"first entry's t exactly 0 … including the single-sample case" is false. -/
theorem buildTimeline_single_sample_counterexample :
    (buildTimeline [⟨⟨1, 0, 0⟩, some 5⟩]).map TimelinePoint.t = [1] ∧ (1 : ℚ) ≠ 0 := by
  constructor
  · decide
  · norm_num

/-- C2 (amended): for every non-empty input whose effective timestamps are
non-decreasing, the timeline `t` values are non-decreasing and the last entry
has `t = 1` exactly; the first entry has `t = 0` whenever there are at least
two samples (a single-sample input instead yields its sole entry with `t = 1`). -/
theorem buildTimeline_monotone_endpoints (points : List TrajectoryPoint)
    (hne : points ≠ [])
    (hs : (effectiveTimestamps points).Sorted (· ≤ ·)) :
    ((buildTimeline points).map TimelinePoint.t).Sorted (· ≤ ·) ∧
    ((buildTimeline points).map TimelinePoint.t).getLastD 9 = 1 ∧
    (2 ≤ points.length → ((buildTimeline points).map TimelinePoint.t).headD 9 = 0) := by
  have hpos : 0 < points.length := List.length_pos.mpr hne
  exact ⟨buildTimeline_t_sorted points hs, buildTimeline_t_getLastD points hpos,
    fun h2 => buildTimeline_t_headD points h2⟩

/-- Witness data for the C2 theorem. -/
def c2Points : List TrajectoryPoint := [⟨⟨0, 0, 0⟩, some 0⟩, ⟨⟨1, 0, 0⟩, some 10⟩]

/-- Witness for C2 (amended) at a concrete two-sample input. -/
theorem buildTimeline_monotone_endpoints_witness :
    (c2Points ≠ [] ∧ (effectiveTimestamps c2Points).Sorted (· ≤ ·)) ∧
    (((buildTimeline c2Points).map TimelinePoint.t).Sorted (· ≤ ·) ∧
      ((buildTimeline c2Points).map TimelinePoint.t).getLastD 9 = 1 ∧
      (2 ≤ c2Points.length →
        ((buildTimeline c2Points).map TimelinePoint.t).headD 9 = 0)) :=
  ⟨⟨by decide, by decide⟩,
    buildTimeline_monotone_endpoints c2Points (by decide) (by decide)⟩

/-- C4: for at least two samples with non-decreasing, not-all-equal effective
timestamps, the `t` values are non-decreasing, start at exactly 0, end at
exactly 1, and each `t_i` equals
`clamp((timestamps[i] - first) / (last - first), 0, 1)`. -/
theorem buildTimeline_spans_unit_interval (points : List TrajectoryPoint)
    (h2 : 2 ≤ points.length)
    (hs : (effectiveTimestamps points).Sorted (· ≤ ·))
    (hnc : ¬ ∀ x ∈ effectiveTimestamps points,
      x = (effectiveTimestamps points).headD 0) :
    ((buildTimeline points).map TimelinePoint.t).Sorted (· ≤ ·) ∧
    ((buildTimeline points).map TimelinePoint.t).headD 9 = 0 ∧
    ((buildTimeline points).map TimelinePoint.t).getLastD 9 = 1 ∧
    ∀ i, i < points.length →
      ((buildTimeline points).map TimelinePoint.t).getD i 9 =
        min (max (((effectiveTimestamps points).getD i 0 -
            (effectiveTimestamps points).headD 0) /
          ((effectiveTimestamps points).getLastD 0 -
            (effectiveTimestamps points).headD 0)) 0) 1 := by
  have hlenq : (effectiveTimestamps points).length = points.length :=
    effectiveTimestamps_length points
  have hne_fl : (effectiveTimestamps points).getLastD 0 ≠
      (effectiveTimestamps points).headD 0 := by
    intro heq
    apply hnc
    intro x hx
    have h1 := sorted_headD_le hs hx
    have h2 := sorted_le_getLastD hs hx
    rw [heq] at h2
    linarith
  have hspan_eq : timelineSpan points =
      (effectiveTimestamps points).getLastD 0 - (effectiveTimestamps points).headD 0 := by
    unfold timelineSpan
    rw [if_pos hne_fl]
  have hspan_pos : 0 < timelineSpan points := by
    rw [hspan_eq]
    have hmem : (effectiveTimestamps points).getLastD 0 ∈ effectiveTimestamps points := by
      rw [getLastD_eq_getD _ _ (by omega), List.getD_eq_getElem _ _ (by omega)]
      exact List.getElem_mem _
    have hle := sorted_headD_le hs hmem
    have hlt := lt_of_le_of_ne hle (fun hcontra => hne_fl hcontra.symm)
    linarith
  refine ⟨buildTimeline_t_sorted points hs, buildTimeline_t_headD points h2,
    buildTimeline_t_getLastD points (by omega), ?_⟩
  intro i hi
  rw [buildTimeline_t_getD points i hi]
  by_cases hlast : i = points.length - 1
  · rw [if_pos hlast]
    have hts : (effectiveTimestamps points).getD i 0 =
        (effectiveTimestamps points).getLastD 0 := by
      rw [getLastD_eq_getD _ _ (by omega), hlenq, hlast]
    rw [hts, div_self (by rw [← hspan_eq]; exact ne_of_gt hspan_pos)]
    norm_num
  · rw [if_neg hlast, if_pos (ne_of_gt hspan_pos), hspan_eq]

/-- Witness data for the C4 theorem. -/
def c4Points : List TrajectoryPoint :=
  [⟨⟨0, 0, 0⟩, some 0⟩, ⟨⟨0, 0, 0⟩, some 100⟩, ⟨⟨0, 0, 0⟩, some 200⟩]

/-- Witness for C4 at a concrete three-sample input with distinct timestamps. -/
theorem buildTimeline_spans_unit_interval_witness :
    (2 ≤ c4Points.length ∧ (effectiveTimestamps c4Points).Sorted (· ≤ ·) ∧
      ¬ ∀ x ∈ effectiveTimestamps c4Points,
        x = (effectiveTimestamps c4Points).headD 0) ∧
    (((buildTimeline c4Points).map TimelinePoint.t).Sorted (· ≤ ·) ∧
      ((buildTimeline c4Points).map TimelinePoint.t).headD 9 = 0 ∧
      ((buildTimeline c4Points).map TimelinePoint.t).getLastD 9 = 1 ∧
      ∀ i, i < c4Points.length →
        ((buildTimeline c4Points).map TimelinePoint.t).getD i 9 =
          min (max (((effectiveTimestamps c4Points).getD i 0 -
              (effectiveTimestamps c4Points).headD 0) /
            ((effectiveTimestamps c4Points).getLastD 0 -
              (effectiveTimestamps c4Points).headD 0)) 0) 1) :=
  ⟨⟨by decide, by decide, by decide⟩,
    buildTimeline_spans_unit_interval c4Points (by decide) (by decide) (by decide)⟩

/-! ## Timeline sampler (Scene.tsx, lines 169-193) -/

/-- The binary-search loop of `sampleTimeline`
(`while (lo < hi) { const mid = Math.floor((lo+hi)/2);
if (timeline[mid].t < clamped) lo = mid + 1; else hi = mid; }`),
written as a recursion that terminates on `hi - lo`. -/
def lowerBound (timeline : List TimelinePoint) (clamped : ℚ) (lo hi : ℕ) : ℕ :=
  if h : lo < hi then
    if (timeline.getD ((lo + hi) / 2) default).t < clamped then
      lowerBound timeline clamped ((lo + hi) / 2 + 1) hi
    else
      lowerBound timeline clamped lo ((lo + hi) / 2)
  else lo
termination_by hi - lo
decreasing_by
  · omega
  · omega

/-- `target.lerpVectors(a, b, alpha)`: component-wise `a + (b - a) * alpha`. -/
def lerpVec (a b : Vec3) (alpha : ℚ) : Vec3 :=
  ⟨a.x + (b.x - a.x) * alpha, a.y + (b.y - a.y) * alpha, a.z + (b.z - a.z) * alpha⟩

/-- Embedding of `sampleTimeline` (Scene.tsx, lines 169-193). JS details:
`Math.max(0, upperIndex - 1)` is ℕ subtraction (saturating at 0); the JS
`(b.t - a.t) || 1` maps a zero difference to 1; the `if (!a || !b)` guard is
the `Option` match; the returned `{position, timestamp}` is a pair. -/
def sampleTimeline (timeline : List TimelinePoint) (progress : ℚ) :
    Option (Vec3 × ℚ) :=
  if timeline.length = 0 then none else
    let clamped := min (max progress 0) 1
    let upperIndex := lowerBound timeline clamped 0 (timeline.length - 1)
    let lowerIndex := upperIndex - 1
    match timeline[lowerIndex]?, timeline[upperIndex]? with
    | some a, some b =>
        let span := if b.t - a.t = 0 then 1 else b.t - a.t
        let localT := if 0 < span then (clamped - a.t) / span else 0
        some (lerpVec a.position b.position localT,
          a.timestamp + (b.timestamp - a.timestamp) * localT)
    | _, _ => none

lemma lerpVec_self (v : Vec3) (alpha : ℚ) : lerpVec v v alpha = v := by
  simp [lerpVec]

lemma lerpVec_one (a b : Vec3) : lerpVec a b 1 = b := by
  simp [lerpVec]

lemma timeline_t_getD_mono (tl : List TimelinePoint)
    (hs : (tl.map TimelinePoint.t).Sorted (· ≤ ·)) {i j : ℕ}
    (hij : i ≤ j) (hj : j < tl.length) :
    (tl.getD i default).t ≤ (tl.getD j default).t := by
  rw [List.getD_eq_getElem _ _ (lt_of_le_of_lt hij hj), List.getD_eq_getElem _ _ hj]
  have h2 := sorted_getElem_mono hs hij
    (show i < (tl.map TimelinePoint.t).length by simp; omega)
    (show j < (tl.map TimelinePoint.t).length by simpa using hj)
  simpa using h2

/-- If the element at `lo` already meets the bound, the search returns `lo`. -/
lemma lowerBound_eq_left (tl : List TimelinePoint) (c : ℚ)
    (hs : (tl.map TimelinePoint.t).Sorted (· ≤ ·)) :
    ∀ fuel lo hi, hi - lo ≤ fuel → hi < tl.length → lo ≤ hi →
      c ≤ (tl.getD lo default).t → lowerBound tl c lo hi = lo := by
  intro fuel
  induction fuel with
  | zero =>
    intro lo hi h1 h2 h3 hc
    rw [lowerBound]
    rw [dif_neg (by omega)]
  | succ n ih =>
    intro lo hi h1 h2 h3 hc
    rw [lowerBound]
    split
    · rename_i h
      have hmono : c ≤ (tl.getD ((lo + hi) / 2) default).t :=
        le_trans hc (timeline_t_getD_mono tl hs (by omega) (by omega))
      rw [if_neg (not_lt.mpr hmono)]
      exact ih lo ((lo + hi) / 2) (by omega) (by omega) (by omega) hc
    · rfl

/-- If every element before `hi` is strictly below the bound, the search
returns `hi`. -/
lemma lowerBound_eq_right (tl : List TimelinePoint) (c : ℚ) :
    ∀ fuel lo hi, hi - lo ≤ fuel → lo ≤ hi →
      (∀ i, i < hi → (tl.getD i default).t < c) → lowerBound tl c lo hi = hi := by
  intro fuel
  induction fuel with
  | zero =>
    intro lo hi h1 h2 hall
    rw [lowerBound, dif_neg (by omega)]
    omega
  | succ n ih =>
    intro lo hi h1 h2 hall
    rw [lowerBound]
    split
    · rename_i h
      rw [if_pos (hall _ (by omega))]
      exact ih ((lo + hi) / 2 + 1) hi (by omega) (by omega) hall
    · rename_i h
      omega

/-- Witness data for the C5 counterexample: a non-decreasing timeline with a
plateau of `t = 1` at the top and distinct positions on the plateau. It is
producible by `buildTimeline` (effective timestamps `[0, 100, 100]`). -/
def badTl : List TimelinePoint :=
  [⟨0, ⟨0, 0, 0⟩, 0⟩, ⟨1, ⟨1, 0, 0⟩, 100⟩, ⟨1, ⟨2, 0, 0⟩, 100⟩]

lemma lowerBound_badTl : lowerBound badTl 1 0 2 = 1 := by
  rw [lowerBound]
  norm_num [badTl, List.getD]
  rw [lowerBound]
  norm_num [badTl, List.getD]
  rw [lowerBound]
  norm_num

/-- C5 (counterexample): for the non-empty timeline `badTl` with non-decreasing
`t` values `[0, 1, 1]`, sampling at progress 1 returns the position of the
FIRST entry whose `t` is 1 — `(1,0,0)` — not the last sample's position
`(2,0,0)`; so the claim is false for merely non-decreasing timelines. -/
theorem sampleTimeline_last_plateau_counterexample :
    badTl ≠ [] ∧ (badTl.map TimelinePoint.t).Sorted (· ≤ ·) ∧
    (sampleTimeline badTl 1).map Prod.fst = some ⟨1, 0, 0⟩ ∧
    (badTl.getLastD default).position = ⟨2, 0, 0⟩ ∧
    (⟨1, 0, 0⟩ : Vec3) ≠ ⟨2, 0, 0⟩ := by
  refine ⟨by decide, by decide, ?_, by decide, by decide⟩
  simp only [sampleTimeline]
  rw [if_neg (by decide)]
  have h2 : badTl.length - 1 = 2 := by decide
  have hc : min (max (1 : ℚ) 0) 1 = 1 := by norm_num
  rw [h2, hc, lowerBound_badTl]
  norm_num [badTl, lerpVec]

/-- C5 (amended): for every timeline whose `t` values are strictly increasing
with first value exactly 0 and last value exactly 1 (the data model's
well-formed `Timeline`), sampling at progress 0 returns exactly the first
sample's position and sampling at progress 1 returns exactly the last
sample's position. -/
theorem sampleTimeline_endpoints (tl : List TimelinePoint)
    (hne : tl ≠ [])
    (hstrict : (tl.map TimelinePoint.t).Sorted (· < ·))
    (h0 : (tl.map TimelinePoint.t).headD 9 = 0)
    (h1 : (tl.map TimelinePoint.t).getLastD 9 = 1) :
    (sampleTimeline tl 0).map Prod.fst = some ((tl.headD default).position) ∧
    (sampleTimeline tl 1).map Prod.fst = some ((tl.getLastD default).position) := by
  have hpos : 0 < tl.length := List.length_pos.mpr hne
  have hmaplen : (tl.map TimelinePoint.t).length = tl.length := by simp
  have hle : (tl.map TimelinePoint.t).Sorted (· ≤ ·) := hstrict.imp le_of_lt
  have h0e : (tl[0]).t = 0 := by
    rw [headD_eq_getD _ _ (by omega), List.getD_eq_getElem _ _ (by omega)] at h0
    simpa using h0
  have h1e : (tl[tl.length - 1]).t = 1 := by
    rw [getLastD_eq_getD _ _ (by omega), hmaplen,
      List.getD_eq_getElem _ _ (by omega)] at h1
    simpa using h1
  have hn2 : 2 ≤ tl.length := by
    by_contra hcon
    have h1e0 : (tl[0]).t = 1 := by
      have hidx : tl.length - 1 = 0 := by omega
      simp only [hidx] at h1e
      exact h1e
    rw [h0e] at h1e0
    norm_num at h1e0
  constructor
  · -- progress 0: the search returns index 0 and both endpoints coincide.
    have hc : min (max (0 : ℚ) 0) 1 = 0 := by norm_num
    have hub : lowerBound tl 0 0 (tl.length - 1) = 0 :=
      lowerBound_eq_left tl 0 hle tl.length 0 (tl.length - 1) (by omega) (by omega)
        (by omega) (by rw [List.getD_eq_getElem _ _ hpos, h0e])
    simp only [sampleTimeline]
    rw [if_neg (by omega), hc, hub]
    have hget : tl[(0 : ℕ)]? = some (tl[0]) := List.getElem?_eq_getElem hpos
    simp only [Nat.zero_sub, hget]
    rw [if_pos (sub_self (tl[0]).t)]
    rw [if_pos (show (0 : ℚ) < 1 by norm_num), lerpVec_self]
    rw [headD_eq_getD _ _ hpos, List.getD_eq_getElem _ _ hpos]
    simp
  · -- progress 1: the search returns the last index; the previous entry has
    -- t strictly below 1, so the local fraction is exactly 1.
    have hc : min (max (1 : ℚ) 0) 1 = 1 := by norm_num
    have hall : ∀ i, i < tl.length - 1 → (tl.getD i default).t < 1 := by
      intro i hi
      rw [List.getD_eq_getElem _ _ (by omega)]
      have hlt := List.pairwise_iff_getElem.mp hstrict i (tl.length - 1)
        (by omega) (by omega) (by omega)
      simp only [List.getElem_map] at hlt
      rw [h1e] at hlt
      exact hlt
    have hub : lowerBound tl 1 0 (tl.length - 1) = tl.length - 1 :=
      lowerBound_eq_right tl 1 tl.length 0 (tl.length - 1) (by omega) (by omega) hall
    simp only [sampleTimeline]
    rw [if_neg (by omega), hc, hub]
    have hgb : tl[tl.length - 1]? = some (tl[tl.length - 1]) :=
      List.getElem?_eq_getElem (by omega)
    have hga : tl[tl.length - 1 - 1]? = some (tl[tl.length - 2]) := by
      rw [show tl.length - 1 - 1 = tl.length - 2 by omega]
      exact List.getElem?_eq_getElem (by omega)
    rw [hga, hgb]
    have halt : (tl[tl.length - 2]).t < 1 := by
      have := hall (tl.length - 2) (by omega)
      rwa [List.getD_eq_getElem _ _ (by omega)] at this
    have hsub_ne : (tl[tl.length - 1]).t - (tl[tl.length - 2]).t ≠ 0 := by
      rw [h1e]
      intro hcontra
      have : (tl[tl.length - 2]).t = 1 := by linarith
      linarith
    simp only [if_neg hsub_ne]
    rw [if_pos (by rw [h1e]; linarith)]
    rw [h1e, div_self (by rw [h1e] at hsub_ne; exact hsub_ne), lerpVec_one]
    rw [getLastD_eq_getD _ _ (by omega), List.getD_eq_getElem _ _ (by omega)]
    simp

/-- Witness data for the C5 theorem: a strictly increasing two-point timeline. -/
def goodTl : List TimelinePoint :=
  [⟨0, ⟨0, 0, 0⟩, 0⟩, ⟨1, ⟨1, 2, 3⟩, 100⟩]

/-- Witness for C5 (amended), applied to `goodTl`. -/
theorem sampleTimeline_endpoints_witness :
    (goodTl ≠ [] ∧ (goodTl.map TimelinePoint.t).Sorted (· < ·) ∧
      (goodTl.map TimelinePoint.t).headD 9 = 0 ∧
      (goodTl.map TimelinePoint.t).getLastD 9 = 1) ∧
    ((sampleTimeline goodTl 0).map Prod.fst = some ((goodTl.headD default).position) ∧
      (sampleTimeline goodTl 1).map Prod.fst = some ((goodTl.getLastD default).position)) :=
  ⟨⟨by decide, by decide, by decide, by decide⟩,
    sampleTimeline_endpoints goodTl (by decide) (by decide) (by decide) (by decide)⟩

/-! ## Playback clock (Scene.tsx, lines 19, 575-593) -/

/-- `const ASTEROID_ANIMATION_DURATION_MS = 15000` (Scene.tsx, line 19). -/
def ASTEROID_ANIMATION_DURATION_MS : ℚ := 15000

/-- Shared playback state: `playbackProgressRef` and `isPlaybackPlayingRef`. -/
structure PlaybackState where
  progress : ℚ
  isPlaying : Bool
deriving DecidableEq, Repr

/-- Playback-advance portion of the `animate` frame callback (Scene.tsx,
lines 575-593): when playing, `duration = playbackDurationRef || 15000`
(JS `||`: a zero duration falls back to the default); if `duration > 0` and
`increment = deltaMs / duration > 0`, then
`nextProgress = min(progress + increment, 1)`, and reaching
`nextProgress >= 1` rewinds progress to 0 without flipping `isPlaying`. -/
def tick (s : PlaybackState) (playbackDuration deltaMs : ℚ) : PlaybackState :=
  if s.isPlaying then
    let duration := if playbackDuration = 0 then ASTEROID_ANIMATION_DURATION_MS
      else playbackDuration
    if 0 < duration then
      let increment := deltaMs / duration
      if 0 < increment then
        let nextProgress := min (s.progress + increment) 1
        if 1 ≤ nextProgress then { s with progress := 0 }
        else { s with progress := nextProgress }
      else s
    else s
  else s

/-- C6: in every playing state, a tick whose increment drives progress to a
value ≥ 1 produces the state with progress exactly 0 and `isPlaying` still
true — the clock loops instead of stopping at the end. -/
theorem tick_wraps_and_keeps_playing (s : PlaybackState) (playbackDuration deltaMs : ℚ)
    (hplay : s.isPlaying = true)
    (hdur : 0 < if playbackDuration = 0 then ASTEROID_ANIMATION_DURATION_MS
      else playbackDuration)
    (hinc : 0 < deltaMs / (if playbackDuration = 0 then ASTEROID_ANIMATION_DURATION_MS
      else playbackDuration))
    (hreach : 1 ≤ s.progress + deltaMs /
      (if playbackDuration = 0 then ASTEROID_ANIMATION_DURATION_MS
        else playbackDuration)) :
    tick s playbackDuration deltaMs = ⟨0, true⟩ := by
  obtain ⟨p, ip⟩ := s
  simp only at hplay
  subst hplay
  simp only [tick, if_true]
  rw [if_pos hdur, if_pos hinc, if_pos (le_min hreach (le_refl 1))]

/-- Witness for C6 at a concrete playing state: progress 0.98, a zero stored
duration (falling back to 15000 ms) and a 400 ms tick wrap progress to 0. -/
theorem tick_wraps_and_keeps_playing_witness :
    ((⟨49 / 50, true⟩ : PlaybackState).isPlaying = true ∧
      (0 : ℚ) < (if (0 : ℚ) = 0 then ASTEROID_ANIMATION_DURATION_MS else 0) ∧
      (0 : ℚ) < 400 / (if (0 : ℚ) = 0 then ASTEROID_ANIMATION_DURATION_MS else 0) ∧
      1 ≤ (49 / 50 : ℚ) + 400 /
        (if (0 : ℚ) = 0 then ASTEROID_ANIMATION_DURATION_MS else 0)) ∧
    tick ⟨49 / 50, true⟩ 0 400 = ⟨0, true⟩ :=
  ⟨⟨rfl, by norm_num [ASTEROID_ANIMATION_DURATION_MS],
      by norm_num [ASTEROID_ANIMATION_DURATION_MS],
      by norm_num [ASTEROID_ANIMATION_DURATION_MS]⟩,
    tick_wraps_and_keeps_playing ⟨49 / 50, true⟩ 0 400 rfl
      (by norm_num [ASTEROID_ANIMATION_DURATION_MS])
      (by norm_num [ASTEROID_ANIMATION_DURATION_MS])
      (by norm_num [ASTEROID_ANIMATION_DURATION_MS])⟩

/-! ## Simulation-data change handler (Scene.tsx, lines 905-1379) -/

/-- The three paths of the `simulationData` change handler that reach a
`return` or the end of the effect. -/
inductive SimulationChange where
  | cleared
  | preview
  | fullSimulation
deriving DecidableEq, Repr

/-- Playback-state effect of the `simulationData` change handler:
* `cleared` (no simulation data, Scene.tsx lines 905-944) calls
  `resetPlayback()` — progress 0, not playing;
* `preview` (Scene.tsx lines 1176-1228) calls `resetPlayback()`;
* `fullSimulation` (Scene.tsx lines 1230-1379) never calls `resetPlayback()`:
  it only clamps `progress` to 1 when it exceeds 1 (lines 1373-1377) and
  leaves `isPlaybackPlayingRef` untouched. -/
def handleSimulationDataChange (s : PlaybackState) (change : SimulationChange) :
    PlaybackState :=
  match change with
  | .cleared => ⟨0, false⟩
  | .preview => ⟨0, false⟩
  | .fullSimulation => ⟨if 1 < s.progress then 1 else s.progress, s.isPlaying⟩

/-- C1 (counterexample): loading full-simulation timelines while playback is
in progress (progress 1/2, playing) does NOT reset the playback state — the
progress and the playing flag survive the load. -/
theorem fullSimulation_load_no_reset_counterexample :
    handleSimulationDataChange ⟨1 / 2, true⟩ SimulationChange.fullSimulation ≠
      ⟨0, false⟩ ∧
    (handleSimulationDataChange ⟨1 / 2, true⟩
      SimulationChange.fullSimulation).isPlaying = true ∧
    (handleSimulationDataChange ⟨1 / 2, true⟩
      SimulationChange.fullSimulation).progress = 1 / 2 := by
  refine ⟨?_, ?_, ?_⟩ <;> norm_num [handleSimulationDataChange]

/-- C1 (amended): the handler resets playback to progress 0 / not playing when
the simulation data is cleared or a preview is loaded; a full-simulation load
instead preserves `isPlaying` and clamps progress to at most 1. -/
theorem handleSimulationDataChange_reset_policy (s : PlaybackState) :
    handleSimulationDataChange s SimulationChange.cleared = ⟨0, false⟩ ∧
    handleSimulationDataChange s SimulationChange.preview = ⟨0, false⟩ ∧
    (handleSimulationDataChange s SimulationChange.fullSimulation).isPlaying =
      s.isPlaying ∧
    (handleSimulationDataChange s SimulationChange.fullSimulation).progress =
      min s.progress 1 := by
  refine ⟨rfl, rfl, rfl, ?_⟩
  simp only [handleSimulationDataChange]
  split
  · rename_i h
    rw [min_eq_right (le_of_lt h)]
  · rename_i h
    push_neg at h
    rw [min_eq_left h]

/-! ## Global timestamp span (Scene.tsx, lines 1338-1354) -/

/-- Embedding of the global timestamp-span computation: the first/last
timestamps of each present (non-empty) timeline are pushed into `starts` /
`ends`, and if both arrays are non-empty the span is
`(Math.min(...starts), Math.max(...ends))`. -/
def computeGlobalSpan (asteroidTl earthTl : List TimelinePoint) : Option (ℚ × ℚ) :=
  let starts :=
    (if asteroidTl.length ≠ 0 then [(asteroidTl.headD default).timestamp] else []) ++
    (if earthTl.length ≠ 0 then [(earthTl.headD default).timestamp] else [])
  let ends :=
    (if asteroidTl.length ≠ 0 then [(asteroidTl.getLastD default).timestamp] else []) ++
    (if earthTl.length ≠ 0 then [(earthTl.getLastD default).timestamp] else [])
  match starts, ends with
  | s :: ss, e :: es => some (ss.foldl min s, es.foldl max e)
  | _, _ => none

/-- All timestamps of both timelines together. -/
def allTimestamps (asteroidTl earthTl : List TimelinePoint) : List ℚ :=
  asteroidTl.map TimelinePoint.timestamp ++ earthTl.map TimelinePoint.timestamp

lemma headD_mem {l : List ℚ} (h : l ≠ []) : l.headD 0 ∈ l := by
  have hl : 0 < l.length := List.length_pos.mpr h
  rw [headD_eq_getD _ _ hl, List.getD_eq_getElem _ _ hl]
  exact List.getElem_mem _

lemma getLastD_mem {l : List ℚ} (h : l ≠ []) : l.getLastD 0 ∈ l := by
  have hl : 0 < l.length := List.length_pos.mpr h
  rw [getLastD_eq_getD _ _ hl, List.getD_eq_getElem _ _ (by omega)]
  exact List.getElem_mem _

lemma headD_timestamp_norm (tl : List TimelinePoint) :
    (tl.head?.getD default).timestamp =
      (Option.map TimelinePoint.timestamp tl.head?).getD 0 := by
  cases tl with
  | nil => rfl
  | cons a as => rfl

lemma getLastD_timestamp_norm (tl : List TimelinePoint) :
    (tl.getLast?.getD default).timestamp =
      (Option.map TimelinePoint.timestamp tl.getLast?).getD 0 := by
  cases hl : tl.getLast? with
  | none => rfl
  | some a => rfl

lemma timeline_headD_timestamp (tl : List TimelinePoint) (h : tl ≠ []) :
    (tl.headD default).timestamp = (tl.map TimelinePoint.timestamp).headD 0 := by
  cases tl with
  | nil => simp at h
  | cons a as => rfl

lemma timeline_getLastD_timestamp (tl : List TimelinePoint) (h : tl ≠ []) :
    (tl.getLastD default).timestamp = (tl.map TimelinePoint.timestamp).getLastD 0 := by
  have hlen : 0 < tl.length := List.length_pos.mpr h
  rw [getLastD_eq_getD _ _ hlen, getLastD_eq_getD _ _ (by simpa using hlen),
    List.getD_eq_getElem _ _ (by omega), List.getD_eq_getElem _ _ (by simp; omega)]
  simp

/-- C7: for timelines whose own timestamps are non-decreasing (as built from
ordered simulation data), with at least one timeline present, the computed
global span is `some (gStart, gEnd)` where `gStart` is the minimum and `gEnd`
the maximum timestamp across all present timelines. -/
theorem computeGlobalSpan_min_max (aTl eTl : List TimelinePoint)
    (ha : (aTl.map TimelinePoint.timestamp).Sorted (· ≤ ·))
    (he : (eTl.map TimelinePoint.timestamp).Sorted (· ≤ ·))
    (hne : aTl ≠ [] ∨ eTl ≠ []) :
    ∃ g : ℚ × ℚ, computeGlobalSpan aTl eTl = some g ∧
      g.1 ∈ allTimestamps aTl eTl ∧ g.2 ∈ allTimestamps aTl eTl ∧
      ∀ x ∈ allTimestamps aTl eTl, g.1 ≤ x ∧ x ≤ g.2 := by
  by_cases hA : aTl = []
  · have hE : eTl ≠ [] := by tauto
    have hEmap : eTl.map TimelinePoint.timestamp ≠ [] := by simpa using hE
    subst hA
    refine ⟨((eTl.map TimelinePoint.timestamp).headD 0,
      (eTl.map TimelinePoint.timestamp).getLastD 0), ?_, ?_, ?_, ?_⟩
    · have hElen : ¬ eTl.length = 0 := fun hh => hE (List.length_eq_zero.mp hh)
      simp [computeGlobalSpan, hElen, headD_timestamp_norm, getLastD_timestamp_norm]
    · simpa [allTimestamps] using headD_mem hEmap
    · simpa [allTimestamps] using getLastD_mem hEmap
    · intro x hx
      rw [allTimestamps] at hx
      simp only [List.map_nil, List.nil_append] at hx
      exact ⟨sorted_headD_le he hx, sorted_le_getLastD he hx⟩
  · by_cases hE : eTl = []
    · have hAmap : aTl.map TimelinePoint.timestamp ≠ [] := by simpa using hA
      subst hE
      refine ⟨((aTl.map TimelinePoint.timestamp).headD 0,
        (aTl.map TimelinePoint.timestamp).getLastD 0), ?_, ?_, ?_, ?_⟩
      · have hAlen : ¬ aTl.length = 0 := fun hh => hA (List.length_eq_zero.mp hh)
        simp [computeGlobalSpan, hAlen, headD_timestamp_norm, getLastD_timestamp_norm]
      · simpa [allTimestamps] using headD_mem hAmap
      · simpa [allTimestamps] using getLastD_mem hAmap
      · intro x hx
        rw [allTimestamps] at hx
        simp only [List.map_nil, List.append_nil] at hx
        exact ⟨sorted_headD_le ha hx, sorted_le_getLastD ha hx⟩
    · have hAmap : aTl.map TimelinePoint.timestamp ≠ [] := by simpa using hA
      have hEmap : eTl.map TimelinePoint.timestamp ≠ [] := by simpa using hE
      have hAlen : ¬ aTl.length = 0 := fun hh => hA (List.length_eq_zero.mp hh)
      have hElen : ¬ eTl.length = 0 := fun hh => hE (List.length_eq_zero.mp hh)
      refine ⟨(min ((aTl.map TimelinePoint.timestamp).headD 0)
          ((eTl.map TimelinePoint.timestamp).headD 0),
        max ((aTl.map TimelinePoint.timestamp).getLastD 0)
          ((eTl.map TimelinePoint.timestamp).getLastD 0)), ?_, ?_, ?_, ?_⟩
      · simp [computeGlobalSpan, hAlen, hElen, headD_timestamp_norm,
          getLastD_timestamp_norm]
      · simp only [allTimestamps]
        rcases min_cases ((aTl.map TimelinePoint.timestamp).headD 0)
          ((eTl.map TimelinePoint.timestamp).headD 0) with ⟨hmin, _⟩ | ⟨hmin, _⟩
        · rw [hmin]
          exact List.mem_append.mpr (Or.inl (headD_mem hAmap))
        · rw [hmin]
          exact List.mem_append.mpr (Or.inr (headD_mem hEmap))
      · simp only [allTimestamps]
        rcases max_cases ((aTl.map TimelinePoint.timestamp).getLastD 0)
          ((eTl.map TimelinePoint.timestamp).getLastD 0) with ⟨hmax, _⟩ | ⟨hmax, _⟩
        · rw [hmax]
          exact List.mem_append.mpr (Or.inl (getLastD_mem hAmap))
        · rw [hmax]
          exact List.mem_append.mpr (Or.inr (getLastD_mem hEmap))
      · intro x hx
        rw [allTimestamps, List.mem_append] at hx
        rcases hx with hx | hx
        · exact ⟨le_trans (min_le_left _ _) (sorted_headD_le ha hx),
            le_trans (sorted_le_getLastD ha hx) (le_max_left _ _)⟩
        · exact ⟨le_trans (min_le_right _ _) (sorted_headD_le he hx),
            le_trans (sorted_le_getLastD he hx) (le_max_right _ _)⟩

/-- Witness data for C7: asteroid timeline with timestamps `[0, 100, 200]`. -/
def c7Asteroid : List TimelinePoint :=
  [⟨0, ⟨0, 0, 0⟩, 0⟩, ⟨1 / 2, ⟨0, 0, 0⟩, 100⟩, ⟨1, ⟨0, 0, 0⟩, 200⟩]

/-- Witness data for C7: Earth timeline with timestamps `[50, 150, 250]`. -/
def c7Earth : List TimelinePoint :=
  [⟨0, ⟨0, 0, 0⟩, 50⟩, ⟨1 / 2, ⟨0, 0, 0⟩, 150⟩, ⟨1, ⟨0, 0, 0⟩, 250⟩]

/-- Witness for C7: on the spec's concrete example the span is `{0, 250}`. -/
theorem computeGlobalSpan_min_max_witness :
    ((c7Asteroid.map TimelinePoint.timestamp).Sorted (· ≤ ·) ∧
      (c7Earth.map TimelinePoint.timestamp).Sorted (· ≤ ·) ∧
      (c7Asteroid ≠ [] ∨ c7Earth ≠ [])) ∧
    computeGlobalSpan c7Asteroid c7Earth = some (0, 250) ∧
    (∃ g : ℚ × ℚ, computeGlobalSpan c7Asteroid c7Earth = some g ∧
      g.1 ∈ allTimestamps c7Asteroid c7Earth ∧
      g.2 ∈ allTimestamps c7Asteroid c7Earth ∧
      ∀ x ∈ allTimestamps c7Asteroid c7Earth, g.1 ≤ x ∧ x ≤ g.2) :=
  ⟨⟨by decide, by decide, Or.inl (by decide)⟩, by decide,
    computeGlobalSpan_min_max c7Asteroid c7Earth (by decide) (by decide)
      (Or.inl (by decide))⟩

/-! ## Real-valued part: orbit diagnostics and the Kepler propagator.

`THREE.Vector3.length()` and the trigonometric Kepler solver are not rational,
so these two modules are embedded over `ℝ`. -/

/-- 3-vector over `ℝ` (THREE.Vector3 for the transcendental code paths). -/
structure Vec3R where
  x : ℝ
  y : ℝ
  z : ℝ

/-- `THREE.Vector3.length()`: the Euclidean norm. -/
noncomputable def Vec3R.length (v : Vec3R) : ℝ :=
  Real.sqrt (v.x ^ 2 + v.y ^ 2 + v.z ^ 2)

namespace OrbitDiagnostics

/-- `const SCALE_FACTOR = 1/149600` (local constant of the diagnostics module,
"must match orbitalMechanics"). -/
noncomputable def SCALE_FACTOR : ℝ := 1 / 149600

/-- `const AU_KM = 149_597_870.7`. -/
noncomputable def AU_KM : ℝ := 149597870.7

/-- `OrbitMetaLike`: reference metadata `{a_au, e, q_au, Q_au}`. -/
structure OrbitMetaLike where
  a_au : ℝ
  e : ℝ
  q_au : ℝ
  Q_au : ℝ

/-- `DerivedOrbit`. -/
structure DerivedOrbit where
  a_au : ℝ
  e : ℝ
  q_au : ℝ
  Q_au : ℝ

/-- The `deltas` record of `OrbitDiagnosticsResult`. -/
structure OrbitDeltas where
  da : ℝ
  de : ℝ
  dq : ℝ
  dQ : ℝ

/-- The `percent` record of `OrbitDiagnosticsResult`. A field is `some v` when
the JS computation yields the finite number `v`; it is `none` when the JS
division by a zero reference yields a non-finite number (`Infinity` or `NaN`). -/
structure OrbitPercent where
  a_pct : Option ℝ
  e_pct : Option ℝ
  q_pct : Option ℝ
  Q_pct : Option ℝ

/-- `OrbitDiagnosticsResult`. -/
structure OrbitDiagnosticsResult where
  derived : DerivedOrbit
  deltas : OrbitDeltas
  percent : OrbitPercent
  sampleCount : ℕ
  rMinAU : ℝ
  rMaxAU : ℝ

/-- Embedding of `analyzeOrbit`. Fewer than 4 points yield `null`; otherwise
radii are converted back to AU, `q/Q/a/e` are derived from `rMin`/`rMax`, and
with metadata the deltas and percentage errors are computed. Of the four
percentages only `e_pct` is guarded against a zero reference
(`meta.e !== 0 ? ... : 0`); `a_pct`, `q_pct`, `Q_pct` divide by the raw
reference value, which in JS produces a non-finite number (modelled `none`)
when that reference is zero. -/
noncomputable def analyzeOrbit (points : List Vec3R) (meta : Option OrbitMetaLike) :
    Option OrbitDiagnosticsResult :=
  if points.length < 4 then none else
    let rs := points.map Vec3R.length
    let rMin := rs.foldl min (rs.headD 0)
    let rMax := rs.foldl max (rs.headD 0)
    let kmMin := rMin / SCALE_FACTOR
    let kmMax := rMax / SCALE_FACTOR
    let q_au := kmMin / AU_KM
    let Q_au := kmMax / AU_KM
    let a_au := (q_au + Q_au) / 2
    let e := (Q_au - q_au) / (Q_au + q_au)
    let derived : DerivedOrbit := ⟨a_au, e, q_au, Q_au⟩
    match meta with
    | none =>
        some ⟨derived, ⟨0, 0, 0, 0⟩, ⟨some 0, some 0, some 0, some 0⟩,
          points.length, q_au, Q_au⟩
    | some m =>
        let deltas : OrbitDeltas :=
          ⟨derived.a_au - m.a_au, derived.e - m.e, derived.q_au - m.q_au,
            derived.Q_au - m.Q_au⟩
        let percent : OrbitPercent :=
          ⟨if m.a_au = 0 then none else some (deltas.da / m.a_au * 100),
            if m.e ≠ 0 then some (deltas.de / m.e * 100) else some 0,
            if m.q_au = 0 then none else some (deltas.dq / m.q_au * 100),
            if m.Q_au = 0 then none else some (deltas.dQ / m.Q_au * 100)⟩
        some ⟨derived, deltas, percent, points.length, q_au, Q_au⟩

/-- Concrete four-point cloud for the C3 counterexample and witness. -/
noncomputable def c3Points : List Vec3R := [⟨1, 0, 0⟩, ⟨2, 0, 0⟩, ⟨3, 0, 0⟩, ⟨4, 0, 0⟩]

/-- Reference metadata with a zero semi-major axis. -/
noncomputable def c3Meta : OrbitMetaLike := ⟨0, 1 / 10, 1 / 2, 3 / 2⟩

/-- C3 (counterexample): with a zero reference `a_au`, `analyzeOrbit` performs
the division by zero anyway — `a_pct` is the non-finite JS value (`none`),
not zero; only the `e` percentage is guarded. -/
theorem analyzeOrbit_zero_reference_counterexample :
    (analyzeOrbit c3Points (some c3Meta)).map (fun r => r.percent.a_pct) =
      some none ∧ (none : Option ℝ) ≠ some 0 := by
  constructor
  · simp [analyzeOrbit, c3Points, c3Meta]
  · simp

/-- C3 (amended): for ≥ 4 points and any metadata, the eccentricity percentage
is always a finite number and is 0 when the reference `e` is 0; the `a`, `q`,
`Q` percentages are instead computed by unguarded division and are non-finite
(`none`) whenever their reference value is zero. -/
theorem analyzeOrbit_percent_guards (points : List Vec3R) (m : OrbitMetaLike)
    (h4 : 4 ≤ points.length) :
    ∃ r : OrbitDiagnosticsResult, analyzeOrbit points (some m) = some r ∧
      (r.percent.e_pct).isSome = true ∧
      (m.e = 0 → r.percent.e_pct = some 0) ∧
      (m.a_au = 0 → r.percent.a_pct = none) ∧
      (m.q_au = 0 → r.percent.q_pct = none) ∧
      (m.Q_au = 0 → r.percent.Q_pct = none) := by
  simp only [analyzeOrbit, if_neg (by omega : ¬ points.length < 4)]
  refine ⟨_, rfl, ?_, ?_, ?_, ?_, ?_⟩
  · by_cases he : m.e = 0 <;> simp [he]
  · intro he
    simp [he]
  · intro ha
    simp [ha]
  · intro hq
    simp [hq]
  · intro hQ
    simp [hQ]

/-- Metadata with all references zero, for the C3 witness. -/
noncomputable def c3AllZeroMeta : OrbitMetaLike := ⟨0, 0, 0, 0⟩

/-- Witness for C3 (amended) at a concrete input exercising every guard. -/
theorem analyzeOrbit_percent_guards_witness :
    4 ≤ c3Points.length ∧
    (∃ r : OrbitDiagnosticsResult,
      analyzeOrbit c3Points (some c3AllZeroMeta) = some r ∧
      (r.percent.e_pct).isSome = true ∧
      (c3AllZeroMeta.e = 0 → r.percent.e_pct = some 0) ∧
      (c3AllZeroMeta.a_au = 0 → r.percent.a_pct = none) ∧
      (c3AllZeroMeta.q_au = 0 → r.percent.q_pct = none) ∧
      (c3AllZeroMeta.Q_au = 0 → r.percent.Q_pct = none)) :=
  ⟨by simp [c3Points],
    analyzeOrbit_percent_guards c3Points c3AllZeroMeta (by simp [c3Points])⟩

end OrbitDiagnostics

namespace OrbitalMechanics

/-- `THREE.MathUtils.degToRad`. -/
noncomputable def degToRad (deg : ℝ) : ℝ := deg * (Real.pi / 180)

/-- `export const AU = 149597870.7` (km). -/
noncomputable def AU : ℝ := 149597870.7

/-- `export const EARTH_ORBITAL_RADIUS = 1 * AU`. -/
noncomputable def EARTH_ORBITAL_RADIUS : ℝ := 1 * AU

/-- `export const EARTH_ORBITAL_PERIOD = 365.25636 * 24 * 3600` (seconds). -/
noncomputable def EARTH_ORBITAL_PERIOD : ℝ := 365.25636 * 24 * 3600

/-- `export const SCALE_FACTOR = 1 / 149600`. -/
noncomputable def SCALE_FACTOR : ℝ := 1 / 149600

/-- `const EARTH_ECCENTRICITY = 0.01671022`. -/
noncomputable def EARTH_ECCENTRICITY : ℝ := 0.01671022

/-- `const EARTH_INCLINATION = degToRad(0.00005)`. -/
noncomputable def EARTH_INCLINATION : ℝ := degToRad 0.00005

/-- `const EARTH_LONG_ASC_NODE = degToRad(-11.26064)`. -/
noncomputable def EARTH_LONG_ASC_NODE : ℝ := degToRad (-11.26064)

/-- `const EARTH_ARG_PERIHELION = degToRad(102.94719)`. -/
noncomputable def EARTH_ARG_PERIHELION : ℝ := degToRad 102.94719

/-- `const EARTH_MEAN_ANOMALY_EPOCH = degToRad(100.46435 - 102.94719 - (-11.26064))`. -/
noncomputable def EARTH_MEAN_ANOMALY_EPOCH : ℝ :=
  degToRad (100.46435 - 102.94719 - (-11.26064))

/-- A 3×3 matrix (THREE.Matrix3 set row-wise by `set(m11, …, m33)`). -/
structure Mat3 where
  m11 : ℝ
  m12 : ℝ
  m13 : ℝ
  m21 : ℝ
  m22 : ℝ
  m23 : ℝ
  m31 : ℝ
  m32 : ℝ
  m33 : ℝ

/-- `getPerifocalToEclipticMatrix()`: the closed-form `Rz(Ω)·Rx(i)·Rz(ω)`
entries (orbitalMechanics.ts, lines 37-58). -/
noncomputable def PERIFOCAL_TO_ECLIPTIC : Mat3 :=
  let cosO := Real.cos EARTH_LONG_ASC_NODE
  let sinO := Real.sin EARTH_LONG_ASC_NODE
  let cosi := Real.cos EARTH_INCLINATION
  let sini := Real.sin EARTH_INCLINATION
  let cosw := Real.cos EARTH_ARG_PERIHELION
  let sinw := Real.sin EARTH_ARG_PERIHELION
  ⟨cosO * cosw - sinO * sinw * cosi, -cosO * sinw - sinO * cosw * cosi, sinO * sini,
    sinO * cosw + cosO * sinw * cosi, -sinO * sinw + cosO * cosw * cosi, -cosO * sini,
    sinw * sini, cosw * sini, cosi⟩

/-- `v.applyMatrix3(m)`: matrix–vector product. -/
def applyMatrix3 (m : Mat3) (v : Vec3R) : Vec3R :=
  ⟨m.m11 * v.x + m.m12 * v.y + m.m13 * v.z,
    m.m21 * v.x + m.m22 * v.y + m.m23 * v.z,
    m.m31 * v.x + m.m32 * v.y + m.m33 * v.z⟩

/-- `v.multiplyScalar(s)`. -/
def multiplyScalar (v : Vec3R) (s : ℝ) : Vec3R := ⟨v.x * s, v.y * s, v.z * s⟩

/-- Truncation toward zero, as used by the JS `%` operator. -/
noncomputable def jsTrunc (x : ℝ) : ℤ := if 0 ≤ x then ⌊x⌋ else ⌈x⌉

/-- The JS remainder `x % p` for finite operands and `p ≠ 0`:
`x - p * trunc(x / p)` (sign of the dividend). -/
noncomputable def jsRem (x p : ℝ) : ℝ := x - p * (jsTrunc (x / p) : ℝ)

/-- One Newton–Raphson step for Kepler's equation:
`E -= (E - e*sin(E) - M) / (1 - e*cos(E))`. -/
noncomputable def newtonStep (e M E : ℝ) : ℝ :=
  E - (E - e * Real.sin E - M) / (1 - e * Real.cos E)

/-- The fixed-count Newton iteration (`for (let it = 0; it < 7; it++)`). -/
noncomputable def keplerIter (e M : ℝ) : ℕ → ℝ → ℝ
  | 0, E => E
  | n + 1, E => keplerIter e M n (newtonStep e M E)

/-- Embedding of `getEarthPosition` (orbitalMechanics.ts, lines 138-156):
`M = M0 + n·(time % period)`, seven Newton steps from `E = M`, perifocal
coordinates, rotation into the ecliptic frame, display scaling. -/
noncomputable def getEarthPosition (time : ℝ) : Vec3R :=
  let a := EARTH_ORBITAL_RADIUS
  let e := EARTH_ECCENTRICITY
  let n := 2 * Real.pi / EARTH_ORBITAL_PERIOD
  let M := EARTH_MEAN_ANOMALY_EPOCH + n * jsRem time EARTH_ORBITAL_PERIOD
  let E := keplerIter e M 7 M
  let cosE := Real.cos E
  let sinE := Real.sin E
  let x_pf := a * (cosE - e)
  let y_pf := a * Real.sqrt (1 - e * e) * sinE
  let pos := applyMatrix3 PERIFOCAL_TO_ECLIPTIC ⟨x_pf, y_pf, 0⟩
  multiplyScalar pos SCALE_FACTOR

lemma EARTH_ORBITAL_PERIOD_pos : 0 < EARTH_ORBITAL_PERIOD := by
  unfold EARTH_ORBITAL_PERIOD
  norm_num

/-- Shifting the argument of `jsRem` by an integer multiple of the modulus
changes the result by an integer multiple of the modulus. -/
lemma jsRem_add_int_mul (x p : ℝ) (k : ℤ) :
    ∃ m : ℤ, jsRem (x + k * p) p = jsRem x p + m * p := by
  refine ⟨k - jsTrunc ((x + k * p) / p) + jsTrunc (x / p), ?_⟩
  unfold jsRem
  push_cast
  ring

/-- A Newton step commutes with a uniform shift of `M` and `E` by `2πm`. -/
lemma newtonStep_shift (e M E : ℝ) (m : ℤ) :
    newtonStep e (M + m * (2 * Real.pi)) (E + m * (2 * Real.pi)) =
      newtonStep e M E + m * (2 * Real.pi) := by
  unfold newtonStep
  rw [Real.sin_add_int_mul_two_pi, Real.cos_add_int_mul_two_pi]
  ring

/-- The whole fixed-count Newton iteration commutes with the `2πm` shift. -/
lemma keplerIter_shift (e M : ℝ) (m : ℤ) (n : ℕ) :
    ∀ E : ℝ, keplerIter e (M + m * (2 * Real.pi)) n (E + m * (2 * Real.pi)) =
      keplerIter e M n E + m * (2 * Real.pi) := by
  induction n with
  | zero => intro E; rfl
  | succ j ih =>
    intro E
    show keplerIter e (M + m * (2 * Real.pi)) j
        (newtonStep e (M + m * (2 * Real.pi)) (E + m * (2 * Real.pi))) =
      keplerIter e M j (newtonStep e M E) + m * (2 * Real.pi)
    rw [newtonStep_shift, ih]

/-- C9: `getEarthPosition` is exactly periodic in the orbital period over
exact real arithmetic — for every time `t` and every integer `k`,
`getEarthPosition (t + k·period) = getEarthPosition t`: the reduction of time
modulo the period shifts the mean anomaly by an integer multiple of `2π`, the
seven Newton steps shift uniformly by the same amount, and the trigonometric
functions of the eccentric anomaly are unchanged. -/
theorem getEarthPosition_periodic (t : ℝ) (k : ℤ) :
    getEarthPosition (t + k * EARTH_ORBITAL_PERIOD) = getEarthPosition t := by
  obtain ⟨m, hm⟩ := jsRem_add_int_mul t EARTH_ORBITAL_PERIOD k
  have hP : EARTH_ORBITAL_PERIOD ≠ 0 := ne_of_gt EARTH_ORBITAL_PERIOD_pos
  have hM : EARTH_MEAN_ANOMALY_EPOCH + 2 * Real.pi / EARTH_ORBITAL_PERIOD *
      jsRem (t + k * EARTH_ORBITAL_PERIOD) EARTH_ORBITAL_PERIOD =
      (EARTH_MEAN_ANOMALY_EPOCH + 2 * Real.pi / EARTH_ORBITAL_PERIOD *
        jsRem t EARTH_ORBITAL_PERIOD) + m * (2 * Real.pi) := by
    rw [hm]
    field_simp
    ring
  simp only [getEarthPosition]
  rw [hM, keplerIter_shift, Real.cos_add_int_mul_two_pi, Real.sin_add_int_mul_two_pi]

end OrbitalMechanics

end MeteorMadness
